import Mathlib

/-!
Verification of the shuaishuai chat-service repository.

Shallow embedding of the core of the repository:
stream orchestration (src/chains/tool_calling_chat.py, src/chains/basic_chat.py),
the SSE event generator (src/api/app.py), request schemas (src/api/schemas.py),
the session store (src/core/memory.py) and the tools
(src/tools/serper_search.py, src/tools/current_time.py).

Python machine state that is external to the program (the network, the model
provider, the wall clock) is passed in explicitly: the model client is an
oracle giving, for each Generating phase, the chunk stream and the
accumulated tool calls of that phase; tool execution is a function from the
tool call to the serialized result; the search backend is a network-outcome
value; the clock is the six broken-down time fields.
-/

namespace Shuai

/-- A tool call as carried by an accumulated assistant response
(LangChain `tool_call` dicts with keys `id`, `name`, `args`). -/
structure ToolCall where
  id : String
  name : String
  args : List (String × String)
deriving DecidableEq

/-- LangChain message objects as used by the chains:
SystemMessage / HumanMessage / AIMessage (with its tool_calls) / ToolMessage. -/
inductive Message where
  | system (content : String)
  | human (content : String)
  | ai (content : String) (toolCalls : List ToolCall)
  | tool (content : String) (toolCallId : Option String) (name : Option String)
deriving DecidableEq

/-- One Generating phase of the model client, seen through `chain.stream`:
the list of `chunk.content` text fragments in arrival order, and the
tool calls of the accumulated (`final_chunk`) response. -/
structure ModelTurn where
  chunks : List String
  toolCalls : List ToolCall
deriving DecidableEq

/-- Result of running `process_tool_calls`: the strings it yielded in order,
the final `messages` list, and the number of model-client invocations
(Generating phases) that it performed. -/
structure LoopResult where
  yields : List String
  messages : List Message
  phases : Nat
deriving DecidableEq

/-- The literal warning string yielded at the iteration cap
(src/chains/tool_calling_chat.py line 229). -/
def maxIterWarning : String := "⚠️ 达到最大工具调用次数，停止迭代。"

/-- The loop body of `process_tool_calls` (src/chains/tool_calling_chat.py
lines 154-230).  `i` is the Python `iteration` index, `rem` the number of
loop indices still to run (`max_iterations - iteration`), so the Python
guard `iteration >= max_iterations - 1` is `rem = 1`.  Per iteration the
chain is streamed (one Generating phase): every chunk with non-empty
`.content` is yielded; the accumulated response's content is the
concatenation of the chunk contents.  If the accumulated response has tool
calls then FOR EACH tool call the code appends the assistant response and
then the tool message (both appends sit inside the per-tool-call loop in
the source); otherwise it breaks.  At the last index it yields the warning
string and breaks. -/
def ptcGo (execTool : ToolCall → String) (oracle : Nat → ModelTurn) :
    Nat → Nat → List Message → LoopResult
  | _, 0, msgs => ⟨[], msgs, 0⟩
  | i, rem + 1, msgs =>
    let turn := oracle i
    let deltas := turn.chunks.filter (fun c => c ≠ "")
    let content := String.join turn.chunks
    if turn.toolCalls = [] then
      ⟨deltas, msgs, 1⟩
    else
      let msgs2 := msgs ++ turn.toolCalls.flatMap (fun tc =>
        [Message.ai content turn.toolCalls,
         Message.tool (execTool tc) (some tc.id) (some tc.name)])
      if rem = 0 then
        ⟨deltas ++ [maxIterWarning], msgs2, 1⟩
      else
        let r := ptcGo execTool oracle (i + 1) rem msgs2
        ⟨deltas ++ r.yields, r.messages, 1 + r.phases⟩

/-- `process_tool_calls(chain, messages, callbacks, max_iterations)`:
runs the Generating / tool-dispatch loop for at most `maxIterations`
iterations (the Python default is `max_iterations = 3`). -/
def process_tool_calls (execTool : ToolCall → String) (oracle : Nat → ModelTurn)
    (messages : List Message) (maxIterations : Nat) : LoopResult :=
  ptcGo execTool oracle 0 maxIterations messages

/-- The stream events of the SSE layer (src/api/app.py docstring and
src/api/sse.py): the `type` tags are meta / delta / tool_start /
tool_result / done / error. -/
inductive StreamEvent where
  | meta (requestId : String)
  | delta (content : String)
  | tool_start (name : String) (args : List (String × String))
  | tool_result (name : String) (result : String)
  | done
  | error (message : String)
deriving DecidableEq

/-- An item yielded by `stream_func` as seen by `gen` in
`chat_stream` (src/api/app.py lines 121-126): `gen` branches on
`isinstance(chunk, str)` versus `isinstance(chunk, dict)`; a string becomes
a delta frame and a dict is passed through as the event it encodes. -/
inductive GenItem where
  | str (s : String)
  | dict (e : StreamEvent)
deriving DecidableEq

/-- How `gen` turns one yielded item into a frame. -/
def genItemEvent : GenItem → StreamEvent
  | .str s => .delta s
  | .dict e => e

/-- The `gen()` generator of `chat_stream` (src/api/app.py lines 115-133):
first the meta frame, then one frame per item produced by the underlying
stream, and finally — because the loop and the done-yield sit in a
`try` whose `except Exception` yields a single error frame — `done` if
the underlying stream was exhausted (`exc = none`) or `error m` if it
raised `m` after producing `items` (`exc = some m`). -/
def genEvents (requestId : String) (items : List GenItem) (exc : Option String) :
    List StreamEvent :=
  StreamEvent.meta requestId ::
    (items.map genItemEvent ++
      (match exc with
       | none => [StreamEvent.done]
       | some m => [StreamEvent.error m]))

/-- The composed tool-calling streaming run with no exception:
`gen` over `stream_tool_calling_text` (which yields exactly what
`process_tool_calls` yields, and only yields strings). -/
def chatStreamToolRun (requestId : String) (execTool : ToolCall → String)
    (oracle : Nat → ModelTurn) (messages : List Message)
    (maxIterations : Nat) : List StreamEvent :=
  genEvents requestId
    ((process_tool_calls execTool oracle messages maxIterations).yields.map GenItem.str)
    none

/-- Recognizer for tool_start frames. -/
def isToolStartEv : StreamEvent → Bool
  | .tool_start _ _ => true
  | _ => false

/-- Recognizer for tool_result frames. -/
def isToolResultEv : StreamEvent → Bool
  | .tool_result _ _ => true
  | _ => false

/-- Recognizer for error frames. -/
def isErrorEv : StreamEvent → Bool
  | .error _ => true
  | _ => false

/-- Recognizer for the done frame. -/
def isDoneEv : StreamEvent → Bool
  | .done => true
  | _ => false

/-!  Request schema (src/api/schemas.py) and the attribute reads of the
`chat_stream` handler (src/api/app.py). -/

/-- A raw chat message record as declared by `ChatMessage`
(src/api/schemas.py lines 19-24) and as consumed by
`to_langchain_messages` via `m.get(...)`: every field is optional at the
dict level (`get` returns None when absent).  `idKey` models the
`"id"` key that `to_langchain_messages` falls back to. -/
structure RawMsg where
  role : Option String
  content : Option String
  name : Option String
  tool_call_id : Option String
  idKey : Option String
  tool_calls : Option (List ToolCall)
deriving DecidableEq

/-- The fields declared on the pydantic model `ChatRequest`
(src/api/schemas.py lines 27-31): `messages`, `system_prompt`,
`max_history_messages`, `use_tools` — and no others. -/
def chatRequestFields : List String :=
  ["messages", "system_prompt", "max_history_messages", "use_tools"]

/-- Attribute access on a parsed `ChatRequest` object: pydantic resolves
an attribute name iff it is a declared field; any other name raises
`AttributeError`, modelled as `false`. -/
def chatRequestHasAttr (attr : String) : Bool :=
  chatRequestFields.contains attr

/-- The attribute names the `chat_stream` handler reads off `req`
(src/api/app.py lines 100-121: `req.use_tools`, `req.session_id`,
`req.query`, `req.system_prompt`). -/
def chatStreamHandlerReads : List String :=
  ["use_tools", "session_id", "query", "system_prompt"]

/-!  Session store (src/core/memory.py) and the basic streaming chain
(src/chains/basic_chat.py). -/

/-- The module-level `_store` dict of src/core/memory.py, keyed by
session id. -/
abbrev SessionStore := List (String × List Message)

/-- Dict lookup in the store. -/
def storeLookup (st : SessionStore) (sid : String) : Option (List Message) :=
  (st.find? (fun p => p.1 = sid)).map (fun p => p.2)

/-- `get_session_history(session_id)` (src/core/memory.py lines 19-26):
returns the history for the id, creating (and persisting) an empty one on
first access.  Returns the history together with the updated store. -/
def get_session_history (st : SessionStore) (sid : String) :
    List Message × SessionStore :=
  match storeLookup st sid with
  | some h => (h, st)
  | none => ([], st ++ [(sid, [])])

/-- Result of one `stream_text` run: the yielded text chunks, the global
session store after the run, and the final content of the
function-local `ChatMessageHistory` that the run built (and discarded). -/
structure StreamTextResult where
  yields : List String
  store : SessionStore
  localHistory : List Message
deriving DecidableEq

/-- `stream_text(chain, session_id=…, query=…)` (src/chains/basic_chat.py
lines 141-180): constructs a FRESH `ChatMessageHistory()` local to the
call, adds the user message to it, streams the chain (yielding every
truthy chunk), and adds the joined reply to the local history.  The
global session store is never consulted or written. -/
def stream_text (st : SessionStore) (sessionId : String) (query : String)
    (chunks : List String) : StreamTextResult :=
  let localHist : List Message := [Message.human query]
  let yields := chunks.filter (fun c => c ≠ "")
  let fullResponse := String.join yields
  let localFinal :=
    if yields = [] then localHist else localHist ++ [Message.ai fullResponse []]
  ⟨yields, st, localFinal⟩

/-!  Message normalization (src/chains/basic_chat.py lines 105-138). -/

/-- Python `a or b` on optional strings: `None` and `""` are falsy. -/
def pyOrStr (a b : Option String) : Option String :=
  match a with
  | some s => if s = "" then b else some s
  | none => b

/-- The whitespace characters `str.strip()` removes. -/
def isPySpace (c : Char) : Bool :=
  c = ' ' || c = '\t' || c = '\n' || c = '\x0d' || c = '\x0b' || c = '\x0c'

/-- Python `str.strip()`: drop leading and trailing whitespace. -/
def pyStrip (s : String) : String :=
  String.mk (((s.data.dropWhile isPySpace).reverse.dropWhile isPySpace).reverse)

/-- Python `str.lower()` (ASCII case mapping, which covers the role
strings this code compares against). -/
def pyLower (s : String) : String :=
  String.mk (s.data.map Char.toLower)

/-- `to_langchain_messages(messages)` (src/chains/basic_chat.py lines
105-138): role is `(m.get("role") or "").strip().lower()`; content is
`m.get("content") or ""`; `system` / `assistant` (with truthy
`tool_calls`) / `tool` are mapped to their message types and anything
else defaults to a human message; a tool record's `tool_call_id` is
`m.get("tool_call_id") or m.get("id")`. -/
def to_langchain_messages (msgs : List RawMsg) : List Message :=
  msgs.map (fun m =>
    let role := pyLower (pyStrip (m.role.getD ""))
    let content := m.content.getD ""
    if role = "system" then Message.system content
    else if role = "assistant" then
      match m.tool_calls with
      | some tcs => if tcs = [] then Message.ai content [] else Message.ai content tcs
      | none => Message.ai content []
    else if role = "tool" then
      Message.tool content (pyOrStr m.tool_call_id m.idKey) m.name
    else Message.human content)

/-!  Serper search tool (src/tools/serper_search.py). -/

/-- A raw organic entry of the Serper API response. -/
structure OrganicItem where
  title : Option String
  link : Option String
  snippet : Option String
deriving DecidableEq

/-- The knowledge-graph block of the raw response. -/
structure KnowledgeGraph where
  title : Option String
  description : Option String
  attributes : List (String × String)
deriving DecidableEq

/-- The answer-box block of the raw response. -/
structure AnswerBox where
  answer : Option String
  snippet : Option String
  title : Option String
deriving DecidableEq

/-- The raw JSON body of a successful Serper API response, with the keys
`_simplify_result` reads (missing keys are `none` / `[]`). -/
structure SerperRaw where
  searchParametersQ : Option String
  totalResults : Option Nat
  knowledgeGraph : Option KnowledgeGraph
  organic : List OrganicItem
  answerBox : Option AnswerBox
  relatedSearches : List String
deriving DecidableEq

/-- The simplified mapping built by `_simplify_result`
(src/tools/serper_search.py lines 147-197): optional keys are present
only under the source's conditions. -/
structure SimplifiedResult where
  query : String
  total_results : Nat
  knowledge_graph : Option KnowledgeGraph
  organic_results : Option (List OrganicItem)
  answer_box : Option AnswerBox
  related_searches : Option (List String)
deriving DecidableEq

/-- `_simplify_result(result)`: query and total from the nested dicts with
defaults; knowledge graph if present; the first 5 organic entries (each
with title defaulted to `""`), included only if non-empty; the answer box
if present; the first 3 related searches if the key is present. -/
def simplifyResult (r : SerperRaw) : SimplifiedResult :=
  let organicTop := (r.organic.take 5).map (fun it =>
    OrganicItem.mk (some (it.title.getD "")) it.link it.snippet)
  ⟨r.searchParametersQ.getD "",
   r.totalResults.getD 0,
   r.knowledgeGraph,
   (if organicTop = [] then none else some organicTop),
   r.answerBox,
   (match r.relatedSearches with
    | [] => none
    | l => some (l.take 3))⟩

/-- What the network interaction inside `_run` can come to: a 30-second
timeout, a `requests.exceptions.RequestException` (which includes the
`HTTPError` raised by `raise_for_status`), a response body that is not
JSON, or a parsed raw result. -/
inductive NetOutcome where
  | timeout
  | requestExc (msg : String)
  | badJson
  | ok (raw : SerperRaw)
deriving DecidableEq

/-- The Python exceptions that the body of `_run` can raise before the
`except` clauses are considered. -/
inductive PyExc where
  | timeoutExc
  | requestExcE (msg : String)
  | jsonDecodeError
deriving DecidableEq

/-- The `try` body of `_run` (src/tools/serper_search.py lines 105-133):
POSTs the payload with `timeout=30`, calls `raise_for_status`, parses the
JSON and simplifies it; each failure mode raises the corresponding
exception. -/
def serperRunBody (outcome : NetOutcome) : Except PyExc SerperRaw :=
  match outcome with
  | .timeout => .error .timeoutExc
  | .requestExc m => .error (.requestExcE m)
  | .badJson => .error .jsonDecodeError
  | .ok raw => .ok raw

/-- The value `_run` returns: the simplified result mapping or an error
mapping with the single key `error`. -/
inductive SerperRunResult where
  | simplified (r : SimplifiedResult)
  | errorResult (msg : String)
deriving DecidableEq

/-- The `error` key of the returned mapping, when present. -/
def SerperRunResult.errorField : SerperRunResult → Option String
  | .simplified _ => none
  | .errorResult m => some m

/-- `SerperSearchTool._run(query, num_results)` (src/tools/serper_search.py
lines 91-145) as a whole: the `try` body, with
`except requests.exceptions.Timeout` returning
`\x7b"error": "搜索请求超时，请稍后重试"\x7d`,
`except requests.exceptions.RequestException as e` returning
`\x7b"error": f"网络请求失败: \x7bstr(e)\x7d"\x7d`, and
`except json.JSONDecodeError` returning
`\x7b"error": "搜索结果解析失败"\x7d`.  An `Except.error` value would mean
an exception escaping `_run`. -/
def serperRun (query : String) (numResults : Nat) (outcome : NetOutcome) :
    Except PyExc SerperRunResult :=
  match serperRunBody outcome with
  | .ok raw => .ok (.simplified (simplifyResult raw))
  | .error .timeoutExc => .ok (.errorResult "搜索请求超时，请稍后重试")
  | .error (.requestExcE m) => .ok (.errorResult ("网络请求失败: " ++ m))
  | .error .jsonDecodeError => .ok (.errorResult "搜索结果解析失败")

/-- The hardcoded fallback API key in `SerperSearchTool.__init__`
(src/tools/serper_search.py line 83). -/
def defaultSerperKey : String := "819e2982d8a6367ab58594c0d4c54ec88a147e18"

/-- `SerperSearchTool.__init__` key selection (src/tools/serper_search.py
lines 77-89): `os.getenv("SERPER_API_KEY")` gives `none` when the variable
is unset; `if not self._api_key` treats both `None` and `""` as falsy and
substitutes the hardcoded default. -/
def serperInitKey (env : Option String) : String :=
  match env with
  | none => defaultSerperKey
  | some s => if s = "" then defaultSerperKey else s

/-!  Current-time tool (src/tools/current_time.py).

`CurrentTimeTool._run` formats `datetime.now()` with
`strftime("%Y-%m-%d %H:%M:%S (%A)")`.  The broken-down time is passed in
explicitly; `%Y`/`%m`/`%d`/`%H`/`%M`/`%S` are the zero-padded decimal
fields and `%A` is the English full weekday name that `datetime` derives
from the same date (proleptic Gregorian calendar, Monday first). -/

/-- Zero-padded two-digit decimal field of `strftime`. -/
def pad2Chars (n : Nat) : List Char :=
  [Nat.digitChar (n / 10 % 10), Nat.digitChar (n % 10)]

/-- Zero-padded four-digit decimal field (`%Y` for `datetime` years,
which lie in 1..9999). -/
def pad4Chars (n : Nat) : List Char :=
  [Nat.digitChar (n / 1000 % 10), Nat.digitChar (n / 100 % 10),
   Nat.digitChar (n / 10 % 10), Nat.digitChar (n % 10)]

/-- The English full weekday names, Monday first (Python
`date.weekday()` has Monday = 0). -/
def weekdayNames : List String :=
  ["Monday", "Tuesday", "Wednesday", "Thursday", "Friday", "Saturday", "Sunday"]

/-- Zeller's congruence for the Gregorian calendar: 0 = Saturday,
1 = Sunday, 2 = Monday, … -/
def zellerH (y m d : Nat) : Nat :=
  let yy := if m ≤ 2 then y - 1 else y
  let mm := if m ≤ 2 then m + 12 else m
  let k := yy % 100
  let j := yy / 100
  (d + 13 * (mm + 1) / 5 + k + k / 4 + j / 4 + 5 * j) % 7

/-- The day of week of a Gregorian date with Python's convention
(Monday = 0 … Sunday = 6). -/
def pythonWeekday (y m d : Nat) : Nat :=
  (zellerH y m d + 5) % 7

/-- Weekday index to `%A` name. -/
def weekdayName (w : Nat) : String :=
  weekdayNames.getD w "Monday"

/-- `CurrentTimeTool._run` (src/tools/current_time.py lines 41-53) at the
clock value `y-mo-d h:mi:s`: the string
`"YYYY-MM-DD HH:MM:SS (Weekday)"`. -/
def currentTimeRun (y mo d h mi s : Nat) : String :=
  String.mk (pad4Chars y ++ '-' :: pad2Chars mo ++ '-' :: pad2Chars d ++
    ' ' :: pad2Chars h ++ ':' :: pad2Chars mi ++ ':' :: pad2Chars s ++
    ' ' :: '(' :: (weekdayName (pythonWeekday y mo d)).data ++ [')'])

/-- Decimal value of a digit character. -/
def digitVal (c : Char) : Nat := c.toNat - 48

/-- Splits a character list of the shape `w ++ [')']` into `w`: returns
the characters before the final `')'` and fails unless the list ends with
`')'`. -/
def splitAtParen (cs : List Char) : Option (List Char) :=
  match cs.reverse with
  | c :: revw => if c = ')' then some revw.reverse else none
  | [] => none

/-- A parsed `current_time` output. -/
structure ParsedTime where
  year : Nat
  month : Nat
  day : Nat
  hour : Nat
  minute : Nat
  second : Nat
  weekday : String
deriving DecidableEq

/-- Reads exactly two decimal digits off the front of a character list. -/
def read2 : List Char → Option (Nat × List Char)
  | a :: b :: rest =>
    if a.isDigit && b.isDigit then some (digitVal a * 10 + digitVal b, rest)
    else none
  | _ => none

/-- Reads exactly four decimal digits off the front of a character list. -/
def read4 : List Char → Option (Nat × List Char)
  | a :: b :: c :: d :: rest =>
    if a.isDigit && b.isDigit && c.isDigit && d.isDigit then
      some (digitVal a * 1000 + digitVal b * 100 + digitVal c * 10 + digitVal d, rest)
    else none
  | _ => none

/-- Consumes one expected character. -/
def expectChar (c : Char) : List Char → Option (List Char)
  | x :: rest => if x = c then some rest else none
  | [] => none

/-- Independent checker for the claimed output format: accepts exactly
strings of the shape `YYYY-MM-DD HH:MM:SS (Weekday)` where the fourteen
field positions are decimal digits, the separators are as claimed, and
the parenthesized word is one of the seven English weekday names; returns
the parsed fields. -/
def parseCurrentTime (str : String) : Option ParsedTime :=
  (read4 str.data).bind fun py =>
  (expectChar '-' py.2).bind fun r1 =>
  (read2 r1).bind fun pmo =>
  (expectChar '-' pmo.2).bind fun r2 =>
  (read2 r2).bind fun pd =>
  (expectChar ' ' pd.2).bind fun r3 =>
  (read2 r3).bind fun ph =>
  (expectChar ':' ph.2).bind fun r4 =>
  (read2 r4).bind fun pmi =>
  (expectChar ':' pmi.2).bind fun r5 =>
  (read2 r5).bind fun ps =>
  (expectChar ' ' ps.2).bind fun r6 =>
  (expectChar '(' r6).bind fun r7 =>
  (splitAtParen r7).bind fun wchars =>
  (if weekdayNames.contains (String.mk wchars) then
    some ⟨py.1, pmo.1, pd.1, ph.1, pmi.1, ps.1, String.mk wchars⟩
  else none)

/-- Recognizer for assistant messages. -/
def isAiMsg : Message → Bool
  | .ai _ _ => true
  | _ => false

/-!  Claim theorems. -/

/-- Tool stub used by the C1 scenario. -/
def execC1 : ToolCall → String := fun _ => "r"

/-- Model oracle for the C1 scenario: the first Generating phase requests
exactly one tool call (with an empty text chunk, as happens while
arguments stream), the second phase answers with no tool calls. -/
def oracleC1 : Nat → ModelTurn := fun i =>
  if i = 0 then ⟨[""], [⟨"call_1", "serper_search", [("query", "news")]⟩]⟩
  else ⟨["ans"], []⟩

/-- Claim C1: the spec says the run emits exactly one ToolStart and one
ToolResult per requested tool call.  The code does not: `process_tool_calls`
yields only strings (text chunks and the cap warning), never the dict
events that `gen` would pass through, so a run whose first phase requests
one tool call emits zero tool_start and zero tool_result frames — only
meta, the final answer delta, and done. -/
theorem claim_C1_no_tool_events :
    (oracleC1 0).toolCalls.length = 1 ∧
    chatStreamToolRun "rid" execC1 oracleC1 [] 3 =
      [StreamEvent.meta "rid", StreamEvent.delta "ans", StreamEvent.done] ∧
    (chatStreamToolRun "rid" execC1 oracleC1 [] 3).countP isToolStartEv = 0 ∧
    (chatStreamToolRun "rid" execC1 oracleC1 [] 3).countP isToolResultEv = 0 := by
  decide

/-- Tool stub used by the C4 scenario. -/
def execC4 : ToolCall → String := fun _ => "res"

/-- Model oracle for the C4 scenario: the first Generating phase requests
two tool calls, the second phase finishes. -/
def oracleC4 : Nat → ModelTurn := fun i =>
  if i = 0 then
    ⟨[""], [⟨"call_1", "serper_search", [("query", "a")]⟩,
            ⟨"call_2", "current_time", []⟩]⟩
  else ⟨["done"], []⟩

/-- Claim C4: the spec says a dispatch phase with `n` tool calls grows the
message list by exactly `1 + n` (assistant message appended once, then one
tool message per call).  The code appends the assistant message INSIDE the
per-tool-call loop, so a phase with 2 tool calls grows the list by 4
(two copies of the assistant message interleaved with the two tool
messages), not 3. -/
theorem claim_C4_messages_growth :
    (process_tool_calls execC4 oracleC4 [] 3).messages.length = 4 ∧
    (process_tool_calls execC4 oracleC4 [] 3).messages.countP isAiMsg = 2 ∧
    ¬ (process_tool_calls execC4 oracleC4 [] 3).messages.length = 1 + 2 := by
  decide

/-- Claim C5: the spec says the streaming handler can read `session_id` and
`query` from the parsed request object.  The pydantic model `ChatRequest`
declares neither field (it declares only the stateless-variant fields), so
the `req.session_id` / `req.query` reads that `chat_stream` performs have
no backing attribute. -/
theorem claim_C5_missing_request_fields :
    chatRequestHasAttr "session_id" = false ∧
    chatRequestHasAttr "query" = false ∧
    "session_id" ∈ chatStreamHandlerReads ∧
    "query" ∈ chatStreamHandlerReads ∧
    chatRequestHasAttr "messages" = true ∧
    chatRequestHasAttr "use_tools" = true := by
  decide

/-- Claim C6: the spec says a completed streaming run extends the Session
Store's history for its session id.  `stream_text` builds a fresh local
`ChatMessageHistory` and never reads or writes the global store: the store
after the run equals the store before it, for every session id — while
`get_session_history` (the store itself) does create an empty history on
first access. -/
theorem claim_C6_store_never_extended :
    ∀ (st : SessionStore) (sid query : String) (chunks : List String),
      (stream_text st sid query chunks).store = st ∧
      storeLookup (stream_text st sid query chunks).store sid = storeLookup st sid ∧
      get_session_history [] sid = ([], [(sid, [])]) := by
  intro st sid query chunks
  refine ⟨rfl, rfl, ?_⟩
  simp [get_session_history, storeLookup]

/-- Claim C7 counterexample: on timeout, `_run` returns the mapping
`\x7b"error": "搜索请求超时，请稍后重试"\x7d`, not the literal
`\x7b"error": "timeout"\x7d` the claim states. -/
theorem claim_C7_timeout_literal_counterexample :
    serperRun "q" 10 NetOutcome.timeout =
      Except.ok (SerperRunResult.errorResult "搜索请求超时，请稍后重试") ∧
    ¬ serperRun "q" 10 NetOutcome.timeout =
        Except.ok (SerperRunResult.errorResult "timeout") ∧
    ¬ (serperRun "q" 10 NetOutcome.timeout).toOption.bind SerperRunResult.errorField
        = some "timeout" := by
  refine ⟨rfl, ?_, ?_⟩
  · intro h
    exact absurd (SerperRunResult.errorResult.inj (Except.ok.inj h)) (by decide)
  · intro h
    exact absurd (Option.some.inj h) (by decide)

/-- Claim C7 (amended): every invocation of `_run` returns a mapping and
never lets an exception escape; on timeout the mapping is
`\x7b"error": "搜索请求超时，请稍后重试"\x7d`, on a transport/API failure it is
`\x7b"error": "网络请求失败: <message>"\x7d`, and on an unparsable body it is
`\x7b"error": "搜索结果解析失败"\x7d` — independent of the query, the result
count, and of whether the operator supplied an API key. -/
theorem claim_C7_never_raises :
    ∀ (q : String) (n : Nat) (o : NetOutcome),
      (∃ r, serperRun q n o = Except.ok r) ∧
      (o = NetOutcome.timeout →
        serperRun q n o = Except.ok (.errorResult "搜索请求超时，请稍后重试")) ∧
      (∀ m, o = NetOutcome.requestExc m →
        serperRun q n o = Except.ok (.errorResult ("网络请求失败: " ++ m))) ∧
      (o = NetOutcome.badJson →
        serperRun q n o = Except.ok (.errorResult "搜索结果解析失败")) := by
  intro q n o
  cases o <;> simp [serperRun, serperRunBody]

/-- Witness for C7: the amended theorem applied at a timeout outcome and
at a concrete transport failure. -/
theorem claim_C7_never_raises_witness :
    serperRun "latest news" 10 NetOutcome.timeout =
      Except.ok (SerperRunResult.errorResult "搜索请求超时，请稍后重试") ∧
    serperRun "latest news" 10 (NetOutcome.requestExc "connection refused") =
      Except.ok (SerperRunResult.errorResult ("网络请求失败: " ++ "connection refused")) :=
  ⟨(claim_C7_never_raises "latest news" 10 NetOutcome.timeout).2.1 rfl,
   (claim_C7_never_raises "latest news" 10
      (NetOutcome.requestExc "connection refused")).2.2.1 "connection refused" rfl⟩

/-- Claim C8: normalizing a raw `role:"tool"` record with a non-empty
`tool_call_id` `x` and content `y` yields a ToolMessage whose
`tool_call_id` is exactly `x` and whose content is exactly `y`. -/
theorem claim_C8_tool_roundtrip :
    ∀ x y : String, ¬ x = "" →
      to_langchain_messages [⟨some "tool", some y, none, some x, none, none⟩] =
        [Message.tool y (some x) none] := by
  intro x y hx
  simp only [to_langchain_messages, List.map_cons, List.map_nil]
  rw [if_neg (by decide), if_neg (by decide), if_pos (by decide)]
  simp [pyOrStr, hx]

/-- Witness for C8 at the spec's literal record
`\x7brole:"tool", tool_call_id:"x", content:"y"\x7d`. -/
theorem claim_C8_tool_roundtrip_witness :
    to_langchain_messages [⟨some "tool", some "y", none, some "x", none, none⟩] =
      [Message.tool "y" (some "x") none] :=
  claim_C8_tool_roundtrip "x" "y" (by decide)

/-- Claim C10: with the environment variable unset or empty, the
constructor substitutes the hardcoded non-empty default key, and the
selected key is non-empty for every environment. -/
theorem claim_C10_default_key :
    ∀ env : Option String,
      ((env = none ∨ env = some "") → serperInitKey env = defaultSerperKey) ∧
      ¬ serperInitKey env = "" ∧
      ¬ defaultSerperKey = "" := by
  intro env
  refine ⟨?_, ?_, by decide⟩
  · rintro (rfl | rfl) <;> simp [serperInitKey]
  · cases env with
    | none => decide
    | some s =>
      by_cases hs : s = ""
      · subst hs; decide
      · simp [serperInitKey, hs]

/-- Witness for C10: unset and empty environment both select the
hardcoded default key, which is non-empty. -/
theorem claim_C10_default_key_witness :
    serperInitKey none = defaultSerperKey ∧
    serperInitKey (some "") = defaultSerperKey ∧
    ¬ defaultSerperKey = "" :=
  ⟨(claim_C10_default_key none).1 (Or.inl rfl),
   (claim_C10_default_key (some "")).1 (Or.inr rfl),
   (claim_C10_default_key none).2.2⟩

/-!  Helper lemmas for the orchestration-loop claims. -/

/-- The loop performs at most `rem` Generating phases. -/
lemma ptcGo_phases_le (e : ToolCall → String) (o : Nat → ModelTurn) :
    ∀ rem i msgs, (ptcGo e o i rem msgs).phases ≤ rem := by
  intro rem
  induction rem with
  | zero => intro i msgs; simp [ptcGo]
  | succ rem ih =>
    intro i msgs
    simp only [ptcGo]
    split
    · simp
    · split
      · simp
      · have := ih (i + 1) (msgs ++ (o i).toolCalls.flatMap (fun tc =>
          [Message.ai (String.join (o i).chunks) (o i).toolCalls,
           Message.tool (e tc) (some tc.id) (some tc.name)]))
        simp only [LoopResult.phases]
        omega

/-- If every phase of the window requests tool calls, the yielded strings
end with the cap-warning string. -/
lemma ptcGo_yields_warning (e : ToolCall → String) (o : Nat → ModelTurn) :
    ∀ rem i msgs, 1 ≤ rem → (∀ j, i ≤ j → j < i + rem → ¬ (o j).toolCalls = []) →
      ∃ pre, (ptcGo e o i rem msgs).yields = pre ++ [maxIterWarning] := by
  intro rem
  induction rem with
  | zero => intro i msgs h; omega
  | succ rem ih =>
    intro i msgs _ hall
    have htc : ¬ (o i).toolCalls = [] := hall i (Nat.le_refl i) (by omega)
    by_cases hrem : rem = 0
    · subst hrem
      exact ⟨(o i).chunks.filter (fun c => c ≠ ""), by simp [ptcGo, htc]⟩
    · obtain ⟨pre, hpre⟩ := ih (i + 1)
        (msgs ++ (o i).toolCalls.flatMap (fun tc =>
          [Message.ai (String.join (o i).chunks) (o i).toolCalls,
           Message.tool (e tc) (some tc.id) (some tc.name)]))
        (by omega) (fun j hj1 hj2 => hall j (by omega) (by omega))
      refine ⟨(o i).chunks.filter (fun c => c ≠ "") ++ pre, ?_⟩
      simp [ptcGo, htc, hrem, hpre]

/-- `gen` over a string-only stream with no exception never emits an
error frame. -/
lemma genEvents_str_no_error (rid : String) (ys : List String) :
    ∀ ev ∈ genEvents rid (ys.map GenItem.str) none, isErrorEv ev = false := by
  intro ev hev
  simp only [genEvents, genItemEvent, List.map_map, List.mem_cons,
    List.mem_append, List.mem_map, List.mem_singleton, Function.comp] at hev
  rcases hev with rfl | ⟨⟨s, _, rfl⟩ | rfl | h⟩
  · rfl
  · rfl
  · rfl
  · exact absurd h (List.not_mem_nil ev)

/-- Claim C2: the loop never performs more than `maxIterations` Generating
phases; the composed run never emits an error frame; and when every phase
up to the bound still requests tool calls, the emitted stream ends with
the warning delta followed by done. -/
theorem claim_C2_iteration_bound :
    ∀ (rid : String) (e : ToolCall → String) (o : Nat → ModelTurn)
      (msgs : List Message) (maxIter : Nat),
      (process_tool_calls e o msgs maxIter).phases ≤ maxIter ∧
      (∀ ev ∈ chatStreamToolRun rid e o msgs maxIter, isErrorEv ev = false) ∧
      (1 ≤ maxIter → (∀ j, j < maxIter → ¬ (o j).toolCalls = []) →
        ∃ pre, chatStreamToolRun rid e o msgs maxIter =
          pre ++ [StreamEvent.delta maxIterWarning, StreamEvent.done]) := by
  intro rid e o msgs maxIter
  refine ⟨ptcGo_phases_le e o maxIter 0 msgs, genEvents_str_no_error rid _, ?_⟩
  intro hmax hall
  obtain ⟨pre, hpre⟩ := ptcGo_yields_warning e o maxIter 0 msgs hmax
    (fun j hj1 hj2 => hall j (by omega))
  refine ⟨StreamEvent.meta rid :: pre.map StreamEvent.delta, ?_⟩
  simp [chatStreamToolRun, genEvents, genItemEvent, process_tool_calls, hpre,
    List.map_map, Function.comp]

/-- Tool stub used by the C2 witness. -/
def execC2 : ToolCall → String := fun _ => "t"

/-- Model oracle for the C2 witness: every phase requests a tool call, so
the run hits the iteration cap. -/
def oracleC2 : Nat → ModelTurn := fun _ => ⟨["x"], [⟨"c", "current_time", []⟩]⟩

/-- Witness for C2: with the default bound 3 and a model that always
requests tools, at most 3 phases run and the stream ends with the warning
delta and done. -/
theorem claim_C2_iteration_bound_witness :
    (process_tool_calls execC2 oracleC2 [] 3).phases ≤ 3 ∧
    ∃ pre, chatStreamToolRun "rid" execC2 oracleC2 [] 3 =
      pre ++ [StreamEvent.delta maxIterWarning, StreamEvent.done] :=
  ⟨(claim_C2_iteration_bound "rid" execC2 oracleC2 [] 3).1,
   (claim_C2_iteration_bound "rid" execC2 oracleC2 [] 3).2.2 (by decide)
     (fun j hj => by simp [oracleC2])⟩

/-- Every event of the string-only part of a gen stream is a meta or a
delta frame. -/
lemma genEvents_error_parts (rid : String) (ys : List String) (m : String) :
    (genEvents rid (ys.map GenItem.str) (some m)).filter isErrorEv =
      [StreamEvent.error m] ∧
    (genEvents rid (ys.map GenItem.str) (some m)).getLast? =
      some (StreamEvent.error m) ∧
    ∀ ev ∈ genEvents rid (ys.map GenItem.str) (some m), isDoneEv ev = false := by
  have hform : genEvents rid (ys.map GenItem.str) (some m) =
      (StreamEvent.meta rid :: ys.map StreamEvent.delta) ++ [StreamEvent.error m] := by
    simp [genEvents, genItemEvent, List.map_map, Function.comp]
  refine ⟨?_, ?_, ?_⟩
  · rw [hform, List.filter_append]
    have h1 : (StreamEvent.meta rid :: ys.map StreamEvent.delta).filter isErrorEv = [] := by
      rw [List.filter_eq_nil_iff]
      intro a ha
      rcases List.mem_cons.mp ha with rfl | hmem
      · simp [isErrorEv]
      · obtain ⟨s, _, rfl⟩ := List.mem_map.mp hmem
        simp [isErrorEv]
    rw [h1]
    rfl
  · rw [hform]
    exact List.getLast?_concat _
  · intro ev hev
    rw [hform] at hev
    rcases List.mem_append.mp hev with hmem | hmem
    · rcases List.mem_cons.mp hmem with rfl | hmem
      · rfl
      · obtain ⟨s, _, rfl⟩ := List.mem_map.mp hmem
        rfl
    · rcases List.mem_singleton.mp hmem with rfl
      rfl

/-- Claim C3: when the underlying stream raises after any prefix of the
orchestrator's yields, `gen` emits exactly one error frame carrying the
message, that frame is the last event of the run, and no done frame is
emitted anywhere in the run. -/
theorem claim_C3_single_error_no_done :
    ∀ (rid : String) (e : ToolCall → String) (o : Nat → ModelTurn)
      (msgs : List Message) (maxIter k : Nat) (m : String),
      (genEvents rid
          (((process_tool_calls e o msgs maxIter).yields.take k).map GenItem.str)
          (some m)).filter isErrorEv = [StreamEvent.error m] ∧
      (genEvents rid
          (((process_tool_calls e o msgs maxIter).yields.take k).map GenItem.str)
          (some m)).getLast? = some (StreamEvent.error m) ∧
      ∀ ev ∈ genEvents rid
          (((process_tool_calls e o msgs maxIter).yields.take k).map GenItem.str)
          (some m), isDoneEv ev = false := by
  intro rid e o msgs maxIter k m
  exact genEvents_error_parts rid _ m

/-!  Helper lemmas for the current-time claim. -/

/-- `Nat.digitChar` of a digit is a digit character. -/
lemma isDigit_digitChar (n : Nat) (h : n < 10) : (Nat.digitChar n).isDigit = true := by
  interval_cases n <;> rfl

/-- `digitVal` inverts `Nat.digitChar` on digits. -/
lemma digitVal_digitChar (n : Nat) (h : n < 10) : digitVal (Nat.digitChar n) = n := by
  interval_cases n <;> rfl

/-- `read2` reads back a zero-padded two-digit field. -/
lemma read2_pad2 (n : Nat) (rest : List Char) (h : n < 100) :
    read2 (pad2Chars n ++ rest) = some (n, rest) := by
  have h1 : (Nat.digitChar (n / 10 % 10)).isDigit = true := isDigit_digitChar _ (by omega)
  have h2 : (Nat.digitChar (n % 10)).isDigit = true := isDigit_digitChar _ (by omega)
  have h3 : digitVal (Nat.digitChar (n / 10 % 10)) = n / 10 % 10 :=
    digitVal_digitChar _ (by omega)
  have h4 : digitVal (Nat.digitChar (n % 10)) = n % 10 := digitVal_digitChar _ (by omega)
  simp [read2, pad2Chars, h1, h2, h3, h4]
  omega

/-- `read4` reads back a zero-padded four-digit field. -/
lemma read4_pad4 (n : Nat) (rest : List Char) (h : n < 10000) :
    read4 (pad4Chars n ++ rest) = some (n, rest) := by
  have h1 : (Nat.digitChar (n / 1000 % 10)).isDigit = true := isDigit_digitChar _ (by omega)
  have h2 : (Nat.digitChar (n / 100 % 10)).isDigit = true := isDigit_digitChar _ (by omega)
  have h3 : (Nat.digitChar (n / 10 % 10)).isDigit = true := isDigit_digitChar _ (by omega)
  have h4 : (Nat.digitChar (n % 10)).isDigit = true := isDigit_digitChar _ (by omega)
  have v1 : digitVal (Nat.digitChar (n / 1000 % 10)) = n / 1000 % 10 :=
    digitVal_digitChar _ (by omega)
  have v2 : digitVal (Nat.digitChar (n / 100 % 10)) = n / 100 % 10 :=
    digitVal_digitChar _ (by omega)
  have v3 : digitVal (Nat.digitChar (n / 10 % 10)) = n / 10 % 10 :=
    digitVal_digitChar _ (by omega)
  have v4 : digitVal (Nat.digitChar (n % 10)) = n % 10 := digitVal_digitChar _ (by omega)
  simp [read4, pad4Chars, h1, h2, h3, h4, v1, v2, v3, v4]
  omega

/-- `expectChar` consumes the matching head character. -/
lemma expectChar_eq (c : Char) (rest : List Char) :
    expectChar c (c :: rest) = some rest := by
  simp [expectChar]

/-- `splitAtParen` recovers the characters before a final `')'`. -/
lemma splitAtParen_append (cs : List Char) :
    splitAtParen (cs ++ [')']) = some cs := by
  simp [splitAtParen, List.reverse_append]

/-- Structure eta for strings: rebuilding a string from its characters
gives the same string. -/
lemma stringMk_data (s : String) : String.mk s.data = s := rfl

/-- The characters of a rebuilt string. -/
lemma dataMk (l : List Char) : (String.mk l).data = l := rfl

/-- Parsing inverts formatting for any in-range fields and any valid
weekday word. -/
lemma parse_format (y mo d h mi s : Nat) (name : String)
    (hy : y < 10000) (hmo : mo < 100) (hd : d < 100) (hh : h < 100)
    (hmi : mi < 100) (hs : s < 100)
    (hct : weekdayNames.contains name = true) :
    parseCurrentTime (String.mk (pad4Chars y ++ '-' :: pad2Chars mo ++
        '-' :: pad2Chars d ++ ' ' :: pad2Chars h ++ ':' :: pad2Chars mi ++
        ':' :: pad2Chars s ++ ' ' :: '(' :: name.data ++ [')'])) =
      some ⟨y, mo, d, h, mi, s, name⟩ := by
  have hsp : splitAtParen (name.data ++ [')']) = some name.data :=
    splitAtParen_append name.data
  have h4 : ∀ rest, read4 (pad4Chars y ++ rest) = some (y, rest) :=
    fun rest => read4_pad4 y rest hy
  have hmo2 : ∀ rest, read2 (pad2Chars mo ++ rest) = some (mo, rest) :=
    fun rest => read2_pad2 mo rest hmo
  have hd2 : ∀ rest, read2 (pad2Chars d ++ rest) = some (d, rest) :=
    fun rest => read2_pad2 d rest hd
  have hh2 : ∀ rest, read2 (pad2Chars h ++ rest) = some (h, rest) :=
    fun rest => read2_pad2 h rest hh
  have hmi2 : ∀ rest, read2 (pad2Chars mi ++ rest) = some (mi, rest) :=
    fun rest => read2_pad2 mi rest hmi
  have hs2 : ∀ rest, read2 (pad2Chars s ++ rest) = some (s, rest) :=
    fun rest => read2_pad2 s rest hs
  simp only [parseCurrentTime, dataMk, List.append_assoc, List.cons_append,
    Option.some_bind, h4, hmo2, hd2, hh2, hmi2, hs2, expectChar_eq, hsp,
    stringMk_data, hct, if_true]

/-- Claim C9: for every clock value with in-range broken-down fields, the
string returned by the current_time tool is of the shape
`YYYY-MM-DD HH:MM:SS (Weekday)` — the independent checker accepts it,
recovering exactly the clock's fields — and the parenthesized weekday
word is the weekday of the returned date. -/
theorem claim_C9_time_format :
    ∀ y mo d h mi s : Nat,
      y < 10000 → 1 ≤ mo → mo ≤ 12 → 1 ≤ d → d ≤ 31 →
      h < 24 → mi < 60 → s < 60 →
      parseCurrentTime (currentTimeRun y mo d h mi s) =
        some ⟨y, mo, d, h, mi, s, weekdayName (pythonWeekday y mo d)⟩ := by
  intro y mo d h mi s hy hmo1 hmo2 hd1 hd2 hh hmi hs
  have hw7 : pythonWeekday y mo d < 7 := Nat.mod_lt _ (by omega)
  have hwd : ∀ w : Nat, w < 7 → weekdayNames.contains (weekdayName w) = true := by
    intro w hw
    interval_cases w <;> decide
  have hct := hwd _ hw7
  have := parse_format y mo d h mi s (weekdayName (pythonWeekday y mo d))
    hy (by omega) (by omega) (by omega) (by omega) (by omega) hct
  simpa [currentTimeRun] using this

/-- Witness for C9 at the clock value 2026-01-11 16:35:00, a Sunday
(the example in the tool's own docstring is this date). -/
theorem claim_C9_time_format_witness :
    parseCurrentTime (currentTimeRun 2026 1 11 16 35 0) =
      some ⟨2026, 1, 11, 16, 35, 0, "Sunday"⟩ := by
  have := claim_C9_time_format 2026 1 11 16 35 0 (by decide) (by decide)
    (by decide) (by decide) (by decide) (by decide) (by decide) (by decide)
  rw [show weekdayName (pythonWeekday 2026 1 11) = "Sunday" from rfl] at this
  exact this

end Shuai
